import Mathlib

/-!
# Verification of the viet-aus-it/homepage repository

A shallow embedding of the repository's AWS CDK infrastructure stack
(`infra/lib/homepage-stack.ts`) and of its presentational React components
(`src/components/*.tsx`, `src/pages/index-page/index.tsx`), with theorems
settling the specification's claims about them.
-/

namespace Homepage

/-! ## Domain constants

From `infra/lib/constants.ts`, quoted verbatim in `docs/infrastructure.md`. -/

def BASE_DOMAIN : String := "vietausit.com"

def SITE_DOMAIN : String := "home.vietausit.com"

def WWW_DOMAIN : String := "www.vietausit.com"

/-! ## CDK resource property embedding

Each structure mirrors the property object passed to the corresponding
`aws-cdk-lib` construct in `infra/lib/homepage-stack.ts`.  References between
constructs (certificate used by the distribution, distribution targeted by DNS
records, bucket used as origin and deployment destination) are recorded by the
referenced construct's id string. -/

/-- `acm.DnsValidatedCertificate` props (homepage-stack.ts lines 24-28). -/
structure CertificateProps where
  region : String
  domainName : String
  hostedZoneDomain : String
  deriving DecidableEq, Repr

/-- `s3.BlockPublicAccess` options used by the stack. -/
inductive BlockPublicAccess where
  | BLOCK_ALL
  deriving DecidableEq, Repr

/-- `cdk.RemovalPolicy` options used by the stack. -/
inductive RemovalPolicy where
  | DESTROY
  deriving DecidableEq, Repr

/-- `s3.Bucket` props (homepage-stack.ts lines 30-36). -/
structure BucketProps where
  bucketName : String
  publicReadAccess : Bool
  blockPublicAccess : BlockPublicAccess
  removalPolicy : RemovalPolicy
  autoDeleteObjects : Bool
  deriving DecidableEq, Repr

/-- `cloudfront.AllowedMethods` options used by the stack. -/
inductive AllowedMethods where
  | ALLOW_GET_HEAD_OPTIONS
  deriving DecidableEq, Repr

/-- The HTTP methods admitted by each `cloudfront.AllowedMethods` constant,
as defined by the CDK library. -/
def AllowedMethods.methods : AllowedMethods → List String
  | .ALLOW_GET_HEAD_OPTIONS => ["GET", "HEAD", "OPTIONS"]

/-- `cloudfront.ViewerProtocolPolicy` options used by the stack. -/
inductive ViewerProtocolPolicy where
  | REDIRECT_TO_HTTPS
  deriving DecidableEq, Repr

/-- `cloudfront.SecurityPolicyProtocol` options used by the stack. -/
inductive SecurityPolicyProtocol where
  | TLS_V1_2_2021
  deriving DecidableEq, Repr

/-- An origin for a CloudFront behavior.  The stack builds its origin with
`cloudfront_origins.S3BucketOrigin.withOriginAccessControl(siteBucket)`
(homepage-stack.ts line 45); the bucket is recorded by construct id. -/
inductive Origin where
  | s3WithOriginAccessControl (bucketId : String)
  deriving DecidableEq, Repr

/-- The construct id of the bucket backing an origin. -/
def Origin.bucketId : Origin → String
  | .s3WithOriginAccessControl b => b

/-- The `defaultBehavior` of the distribution (homepage-stack.ts lines 44-49). -/
structure BehaviorOptions where
  origin : Origin
  compress : Bool
  allowedMethods : AllowedMethods
  viewerProtocolPolicy : ViewerProtocolPolicy
  deriving DecidableEq, Repr

/-- One entry of `errorResponses` (homepage-stack.ts lines 50-61). -/
structure ErrorResponse where
  httpStatus : Nat
  responseHttpStatus : Nat
  responsePagePath : String
  deriving DecidableEq, Repr

/-- `cloudfront.Distribution` props (homepage-stack.ts lines 39-63). -/
structure DistributionProps where
  defaultRootObject : String
  certificateId : String
  domainNames : List String
  minimumProtocolVersion : SecurityPolicyProtocol
  defaultBehavior : BehaviorOptions
  errorResponses : List ErrorResponse
  comment : String
  deriving DecidableEq, Repr

/-- `route53.ARecord` props (homepage-stack.ts lines 68-82): an alias record
whose target is `RecordTarget.fromAlias(new CloudFrontTarget(distribution))`,
recorded by the distribution's construct id. -/
structure ARecordProps where
  recordName : String
  targetDistributionId : String
  zoneId : String
  deriving DecidableEq, Repr

/-- `s3_deployment.BucketDeployment` props (homepage-stack.ts lines 87-92). -/
structure BucketDeploymentProps where
  destinationBucketId : String
  distributionId : String
  distributionPaths : List String
  deriving DecidableEq, Repr

/-- The kinds of constructs the stack's constructor instantiates, with the
props each one is given. -/
inductive Resource where
  | hostedZone (domainName : String)
  | certificate (props : CertificateProps)
  | bucket (props : BucketProps)
  | cfnOutput (referencedId : String)
  | distribution (props : DistributionProps)
  | aRecord (props : ARecordProps)
  | bucketDeployment (props : BucketDeploymentProps)
  deriving DecidableEq, Repr

/-- The construct ids a resource's props reference.  A reference can only be
formed from a construct object already in scope at that point of the
constructor body. -/
def Resource.references : Resource → List String
  | .hostedZone _ => []
  | .certificate _ => ["VAITHostedZone"]
  | .bucket _ => []
  | .cfnOutput i => [i]
  | .distribution p => [p.certificateId, p.defaultBehavior.origin.bucketId]
  | .aRecord p => [p.targetDistributionId, p.zoneId]
  | .bucketDeployment p => [p.destinationBucketId, p.distributionId]

/-- The certificate props declared by the stack (homepage-stack.ts
lines 24-28). -/
def certificateProps : CertificateProps :=
  { region := "us-east-1"
  , domainName := "*." ++ BASE_DOMAIN
  , hostedZoneDomain := BASE_DOMAIN }

/-- The bucket props declared by the stack (homepage-stack.ts lines 30-36). -/
def siteBucketProps : BucketProps :=
  { bucketName := SITE_DOMAIN
  , publicReadAccess := false
  , blockPublicAccess := .BLOCK_ALL
  , removalPolicy := .DESTROY
  , autoDeleteObjects := true }

/-- The distribution props declared by the stack (homepage-stack.ts
lines 39-63). -/
def distributionProps : DistributionProps :=
  { defaultRootObject := "index.html"
  , certificateId := "VAITHomeCertificate"
  , domainNames := [SITE_DOMAIN]
  , minimumProtocolVersion := .TLS_V1_2_2021
  , defaultBehavior :=
      { origin := .s3WithOriginAccessControl "HomepageSiteBucket"
      , compress := true
      , allowedMethods := .ALLOW_GET_HEAD_OPTIONS
      , viewerProtocolPolicy := .REDIRECT_TO_HTTPS }
  , errorResponses :=
      [ { httpStatus := 403, responseHttpStatus := 200
        , responsePagePath := "/index.html" }
      , { httpStatus := 404, responseHttpStatus := 200
        , responsePagePath := "/index.html" } ]
  , comment := "Homepage Cloudfront Distribution" }

/-- The alias record targeting the given name at the distribution
(homepage-stack.ts lines 68-82: all three records share target and zone). -/
def aliasRecordProps (name : String) : ARecordProps :=
  { recordName := name
  , targetDistributionId := "HomepageSiteDistribution"
  , zoneId := "VAITHostedZone" }

/-- The deployment props declared by the stack (homepage-stack.ts
lines 87-92). -/
def deploymentProps : BucketDeploymentProps :=
  { destinationBucketId := "HomepageSiteBucket"
  , distributionId := "HomepageSiteDistribution"
  , distributionPaths := ["/*"] }

/-- The body of `HomepageStack`'s constructor (homepage-stack.ts lines 18-93)
as the sequence of `(constructId, resource)` instantiations it performs, in
source order.  The body is a straight line: no conditional, no loop. -/
def homepageStackEvents : List (String × Resource) :=
  [ ("VAITHostedZone", .hostedZone BASE_DOMAIN)
  , ("VAITHomeCertificate", .certificate certificateProps)
  , ("HomepageSiteBucket", .bucket siteBucketProps)
  , ("BucketArn", .cfnOutput "HomepageSiteBucket")
  , ("HomepageSiteDistribution", .distribution distributionProps)
  , ("DistributionId", .cfnOutput "HomepageSiteDistribution")
  , ("SiteAliasRecord", .aRecord (aliasRecordProps SITE_DOMAIN))
  , ("SiteAliasRecord", .aRecord (aliasRecordProps BASE_DOMAIN))
  , ("SiteAliasRecord", .aRecord (aliasRecordProps WWW_DOMAIN))
  , ("DeployWithInvalidation", .bucketDeployment deploymentProps)
  , ("DistributionDomain", .cfnOutput "HomepageSiteDistribution") ]

/-- The constructs library's scope semantics (`Node.addChild` in the
`constructs` package, on which every `aws-cdk-lib` construct is built):
children are added to a scope one at a time, and adding a child whose id is
already taken throws `Error: There is already a Construct with name '<id>'`.
On failure we return the offending id together with the children created up
to that point. -/
def addConstructs :
    List (String × Resource) → List (String × Resource) →
    Except (String × List (String × Resource)) (List (String × Resource))
  | acc, [] => .ok acc
  | acc, (i, r) :: rest =>
    if (acc.map Prod.fst).contains i then
      .error (i, acc)
    else
      addConstructs (acc ++ [(i, r)]) rest

/-- Constructing `HomepageStack`: run the constructor body's instantiation
sequence under the constructs library's unique-id rule. -/
def constructHomepageStack :
    Except (String × List (String × Resource)) (List (String × Resource)) :=
  addConstructs [] homepageStackEvents

/-- Whether a resource is a DNS alias record. -/
def Resource.isARecord : Resource → Bool
  | .aRecord _ => true
  | _ => false

/-- The alias records among a list of instantiations. -/
def aRecordsOf (evs : List (String × Resource)) : List ARecordProps :=
  evs.filterMap fun e =>
    match e.2 with
    | .aRecord p => some p
    | _ => none

/-- What a viewer receives for an error status from the distribution's
`errorResponses` configuration: the first matching entry's replacement status
and page, if any entry matches. -/
def rewriteStatus (p : DistributionProps) (s : Nat) : Option (Nat × String) :=
  (p.errorResponses.find? fun er => er.httpStatus = s).map
    fun er => (er.responseHttpStatus, er.responsePagePath)

/-- Split a host name, given as a character list, into its dot-separated
labels. -/
def splitLabels : List Char → List (List Char)
  | [] => [[]]
  | c :: cs =>
    let rest := splitLabels cs
    if c = '.' then [] :: rest
    else
      match rest with
      | [] => [[c]]
      | l :: ls => (c :: l) :: ls

/-- TLS certificate name coverage: a wildcard name `*.<base>` covers hosts
made of exactly one extra non-empty label in front of `<base>` — and so not
the bare `<base>` itself; a non-wildcard name covers only itself. -/
def coversHost (certName host : String) : Bool :=
  match certName.toList with
  | '*' :: '.' :: base =>
    match splitLabels host.toList with
    | [] => false
    | label :: rest => label ≠ [] && label ≠ ['*'] && rest = splitLabels base
  | _ => certName.toList = host.toList

/-- The certificates requested by a list of construct instantiations. -/
def certificatesOf (evs : List (String × Resource)) : List CertificateProps :=
  evs.filterMap fun e =>
    match e.2 with
    | .certificate p => some p
    | _ => none

/-- Does each instantiation in the sequence reference only construct ids
instantiated strictly before it?  `seen` holds the ids already created. -/
def referencesBackward (seen : List String) : List (String × Resource) → Bool
  | [] => true
  | (i, r) :: rest =>
    r.references.all (fun x => seen.contains x) && referencesBackward (i :: seen) rest

/-! ## Markup embedding for the React components

A rendered React element is a tree of tags with string attributes and text
nodes.  JSX interpolations (`{expr}`) become string concatenations. -/

/-- A markup tree: an element with a tag, attributes and children, or a text
node. -/
inductive Html where
  | el (tag : String) (attrs : List (String × String)) (children : List Html)
  | text (s : String)

mutual

/-- The text nodes of a markup tree, in document order. -/
def Html.texts : Html → List String
  | .text s => [s]
  | .el _ _ cs => htmlsTexts cs

/-- The text nodes of a list of markup trees, in document order. -/
def htmlsTexts : List Html → List String
  | [] => []
  | c :: cs => Html.texts c ++ htmlsTexts cs

end

/-- The value of the attribute named `key`, if present. -/
def lookupAttr : List (String × String) → String → Option String
  | [], _ => none
  | (k, v) :: rest, key => if k = key then some v else lookupAttr rest key

/-- Replace the value of the attribute named `key`, where present. -/
def setAttr : List (String × String) → String → String → List (String × String)
  | [], _, _ => []
  | (k, v) :: rest, key, value =>
    if k = key then (key, value) :: rest else (k, v) :: setAttr rest key value

/-- A side effect a component performs outside its returned markup tree. -/
inductive Effect where
  | setDocumentTitle (title : String)
  deriving DecidableEq, Repr

/-- Modelled from the spec: the `ORGANISATION` constant of
`src/lib/constants.ts` is not among the sources; only the fields the
components read are modelled, their values left as opaque strings. -/
structure Organisation where
  ABN : String
  ASSOCIATION_NUMBER : String
  NAME : String
  SHORT_NAME : String
  DISCORD_URL : String
  deriving DecidableEq, Repr

/-- Modelled from the spec: `src/components/ui/badge.tsx` is not among the
sources; the badge is modelled as one element carrying its variant, class and
children. -/
def Badge (variant className : String) (children : List Html) : Html :=
  .el "Badge" [("variant", variant), ("className", className)] children

/-- Modelled from the spec: `src/components/ui/button.tsx` is not among the
sources; the button (used with `asChild`) is modelled as one element wrapping
its child. -/
def Button (size className : String) (child : Html) : Html :=
  .el "Button" [("size", size), ("className", className)] [child]

/-- Modelled from the spec: the `DiscordLogo` icon of
`src/components/ui/icons` is not among the sources; modelled as one empty
element. -/
def DiscordLogo (className : String) : Html :=
  .el "DiscordLogo" [("className", className)] []

/-- `JoinCommunityCTAButton` (`src/components/ui/join-community-cta-button.tsx`):
a call-to-action link to the organisation's community, with the prop's text or
its default. -/
def JoinCommunityCTAButton (org : Organisation) (ctaText : Option String) : Html :=
  let t := ctaText.getD "Join our Community"
  .el "section"
    [("className", "w-full flex flex-col items-center justify-center my-16")]
    [ Button "lg"
        "bg-brand-yellow text-brand-dark-gray hover:bg-brand-gray hover:text-white font-semibold text-lg px-8 py-4 rounded-full shadow-lg transition-colors duration-200"
        (.el "a"
          [ ("href", org.DISCORD_URL), ("target", "_blank")
          , ("rel", "noopener noreferrer"), ("aria-label", "Join our Community") ]
          [.text t, DiscordLogo "h-5! w-5!"]) ]

/-- `Hero` (`src/components/hero.tsx`): headline, subtitle and the CTA
button. -/
def Hero (org : Organisation) (title subtitle : String) : Html :=
  .el "section"
    [ ("id", "hero")
    , ("className", "relative min-h-screen flex items-center justify-center px-6 pt-6 overflow-hidden") ]
    [ .el "div" [("className", "relative z-[1] text-center max-w-screen-md")]
        [ .el "h1"
            [("className", "text-4xl sm:text-5xl md:text-6xl font-semibold !leading-[1.2] tracking-tight")]
            [.text title]
        , .el "h2"
            [("className", "mt-6 text-3xl md:text-4xl tracking-tight text-brand-dark-gray")]
            [.text subtitle]
        , JoinCommunityCTAButton org none ] ]

/-- `Footer` (`src/components/footer.tsx`): ABN, association number and the
copyright line.  `currentYear` is `new Date().getFullYear()`, read from the
clock at render time, not a prop. -/
def Footer (org : Organisation) (currentYear : Nat) : Html :=
  .el "footer"
    [("className", "z-1 w-full py-6 px-4 bg-brand-gray-dark text-brand-yellow text-center text-sm border-t border-brand-gray bg-brand-gray-dark")]
    [ .el "div" [("className", "flex flex-col md:flex-row items-center justify-center gap-2")]
        [ .el "span" [] [.text ("ABN: " ++ org.ABN)]
        , .el "span" [("className", "hidden md:inline")] [.text "|"]
        , .el "span" [] [.text ("Association No: (VIC) " ++ org.ASSOCIATION_NUMBER)] ]
    , .el "div" [("className", "mt-2 text-brand-gray")]
        [.text ("© " ++ toString currentYear ++ " " ++ org.NAME)] ]

/-- The copyright line of the footer's markup: the text of the second child
element. -/
def footerCopyrightText (h : Html) : Option String :=
  match h with
  | .el _ _ [_, .el _ _ [.text s]] => some s
  | _ => none

/-- Effect list of `Hero`: the component body declares no hook. -/
def heroEffects : List Effect := []

/-- Effect list of `Footer`: the component body declares no hook. -/
def footerEffects : List Effect := []

/-- Effect list of `SectionWithImage`: the component body declares no hook. -/
def sectionWithImageEffects : List Effect := []

/-- Effect list of `IndexPage` (`src/pages/index-page/index.tsx` lines 54-56):
its `useEffect` sets `document.title` to `SHORT_NAME - NAME`. -/
def indexPageEffects (org : Organisation) : List Effect :=
  [.setDocumentTitle (org.SHORT_NAME ++ " - " ++ org.NAME)]

/-- The specification's purity claim over the modelled components, as stated:
every component's markup is a function of its props alone — in particular the
footer's markup cannot change between renders with equal props — and no
component performs a side effect outside its returned tree. -/
def allComponentsPure : Prop :=
  (∀ (org : Organisation) (y1 y2 : Nat), Footer org y1 = Footer org y2) ∧
  footerEffects = [] ∧ heroEffects = [] ∧ sectionWithImageEffects = [] ∧
  ∀ org : Organisation, indexPageEffects org = []

/-! ## The Logo component (`src/components/ui/logo.tsx`) -/

/-- The brand palette `LOGO_COLOURS`. -/
structure LogoColourConsts where
  PRIMARY : String
  SECONDARY : String
  DARK_GRAY : String
  deriving DecidableEq, Repr

/-- `LOGO_COLOURS` from `src/components/ui/logo.tsx` lines 1-5. -/
def LOGO_COLOURS : LogoColourConsts :=
  { PRIMARY := "#F5DF4D", SECONDARY := "#939597", DARK_GRAY := "#1C1C1C" }

/-- The `LogoColour` variant type; `darkGray` stands for the source's
`dark-gray`. -/
inductive LogoColour where
  | colour
  | gray
  | darkGray
  deriving DecidableEq, Repr

/-- The colour pair handed to the SVG paths. -/
structure LogoColourProps where
  primaryColour : String
  secondaryColour : String
  deriving DecidableEq, Repr

/-- `getLogoColours` (logo.tsx lines 57-75). -/
def getLogoColours : LogoColour → LogoColourProps
  | .colour => { primaryColour := LOGO_COLOURS.PRIMARY, secondaryColour := LOGO_COLOURS.SECONDARY }
  | .gray => { primaryColour := LOGO_COLOURS.SECONDARY, secondaryColour := LOGO_COLOURS.SECONDARY }
  | .darkGray => { primaryColour := LOGO_COLOURS.DARK_GRAY, secondaryColour := LOGO_COLOURS.SECONDARY }

/-- Path data of the first (primary ticks) path of the logo SVG. -/
def logoTickPrimaryD : String :=
  "m314.438 126.338 2.238-.113c7.423 1.29 13.039 8.734 18.079 13.796a3809 3809 0 0 1 10.669 10.659q4.078 4.084 8.163 8.161 6.853 6.848 13.696 13.707 7.906 7.92 15.828 15.824 6.81 6.797 13.611 13.605 4.056 4.063 8.12 8.118 3.82 3.811 7.626 7.636 2.062 2.065 4.131 4.123l2.485 2.502 2.158 2.16c3.89 4.41 5.679 8.208 5.883 14.134-1.931 5.772-4.682 9.231-9.063 13.375l-1.642 1.614c-3.925 3.813-5.987 5.209-11.42 5.511l-2.758.219c-7.505-1.73-13.691-10.151-19.002-15.49l-2.25-2.249a7136 7136 0 0 1-7.271-7.288l-5.078-5.082a23859 23859 0 0 1-13.296-13.321q-6.796-6.809-13.595-13.615-13.317-13.333-26.625-26.674c-5.122 4.285-9.904 8.775-14.6 13.519l-2.196 2.205a4159 4159 0 0 0-4.681 4.709 5787 5787 0 0 1-7.416 7.451 22139 22139 0 0 0-21.071 21.176q-6.454 6.494-12.921 12.976a3270 3270 0 0 0-4.911 4.941 2973 2973 0 0 1-6.863 6.893l-2.037 2.064c-7.612 7.596-7.612 7.596-12.585 8.465l-2.219-.024-2.219.024c-5.523-.965-9.178-4.983-12.968-8.836l-1.471-1.447c-4.565-4.59-6.014-7.432-6.303-13.92 1.563-7.442 9.112-13.127 14.231-18.224l3.002-3.013q4.06-4.07 8.132-8.131 4.26-4.256 8.516-8.519 7.143-7.147 14.296-14.285 8.272-8.257 16.527-16.531 7.092-7.106 14.196-14.201 4.242-4.236 8.476-8.479a3320 3320 0 0 1 7.966-7.956q1.464-1.46 2.923-2.926a935 935 0 0 1 3.99-3.978l2.255-2.253c2.892-2.519 5.552-2.89 9.264-3.012M208.125 17.65c6.693 3.202 13.953 9.968 17.293 16.547 1.184 4.107.888 7.37-.293 11.453-1.292 1.86-1.292 1.86-2.956 3.675l-1.923 2.1c-3.904 4.096-7.875 8.118-11.88 12.114l-2.89 2.895q-3.889 3.894-7.784 7.784-4.084 4.08-8.165 8.166-6.843 6.846-13.69 13.685a19368 19368 0 0 0-15.83 15.832q-6.804 6.81-13.613 13.616-4.063 4.06-8.122 8.123-3.808 3.812-7.621 7.616-2.07 2.068-4.136 4.14l-2.476 2.468-2.157 2.155c-2.809 2.608-4.757 2.836-8.507 2.944l-2.547.113c-7.612-1.199-13.26-8.687-18.424-13.856l-2.915-2.894a3381 3381 0 0 1-7.865-7.842l-4.917-4.907q-8.592-8.562-17.167-17.141a7217 7217 0 0 0-15.992-15.94q-6.886-6.848-13.75-13.715-4.094-4.098-8.205-8.178a1650 1650 0 0 1-7.705-7.7 802 802 0 0 0-4.174-4.143C4.12 51.11.262 46.955 0 38.713c1.457-8.115 10.002-14.206 16.125-19.063 2.271-1.135 3.723-1.23 6.25-1.312l2.266-.113c6.775 1.16 11.802 7.47 16.417 12.131l2.338 2.337c2.537 2.539 5.066 5.084 7.596 7.63a10965 10965 0 0 1 17.75 17.802q7.793 7.824 15.594 15.639a35465 35465 0 0 1 27.789 27.886c5.121-4.281 9.895-8.77 14.584-13.518l2.191-2.205a4151 4151 0 0 0 4.671-4.709q3.698-3.73 7.404-7.452a14286 14286 0 0 0 21.038-21.175q6.442-6.497 12.902-12.976 2.454-2.466 4.9-4.941c2.278-2.305 4.566-4.6 6.855-6.893l2.027-2.064c5.699-5.675 11.137-9.493 19.428-8.066Z"

/-- Path data of the second (secondary ticks) path of the logo SVG. -/
def logoTickSecondaryD : String :=
  "M209.211 127.674c5.63 4.028 11.794 9.736 14.914 15.976.344 2.102.344 2.102.5 4.625l.219 2.477c-1.865 7.518-10.561 13.876-15.93 19.207l-2.393 2.388a4905 4905 0 0 1-5.108 5.091q-4.052 4.034-8.098 8.074-9.32 9.3-18.648 18.591-9.24 9.207-18.471 18.421-3.976 3.964-7.955 7.923l-4.905 4.895-2.214 2.198c-4 4-7.822 8.097-11.506 12.391-1.988 2.293-4.091 4.452-6.241 6.594l-2.234 2.243c-2.986 2.789-5.143 4.222-9.203 4.445-3.912-.145-5.711-.907-8.561-3.569l-2.092-1.932-2.16-2.062-2.126-1.998c-4.803-4.553-9.517-9.197-14.23-13.843a756 756 0 0 0-5.2-5.056 828 828 0 0 1-7.534-7.376l-2.36-2.245c-4.297-4.312-6.424-7.355-6.756-13.516.652-6.226 6.963-11.026 11.206-15.216l1.867-1.89 1.82-1.813 1.637-1.63c2.734-2.311 5.003-3.329 8.551-3.792 7.635.917 12.898 7.911 18 13.125l2.375 2.403q2.882 2.917 5.75 5.847c3.035-1.357 5.123-2.877 7.46-5.232l2.018-2.019 2.18-2.212 2.323-2.331q2.493-2.505 4.981-5.017 3.934-3.97 7.879-7.928a14735 14735 0 0 0 16.722-16.823q9.684-9.757 19.386-19.498 3.889-3.912 7.769-7.833l4.753-4.773 2.187-2.218 2.009-2.01 1.741-1.754c4.144-3.518 10.925-3.66 15.678-1.328M336.125.65c4.117 2.724 7.403 6.21 10.785 9.774q1.486 1.509 2.977 3.012a806 806 0 0 1 7.727 7.958c2.618 2.714 5.269 5.397 7.915 8.085a1814 1814 0 0 1 13.835 14.223c2.773 3.068 3.297 5.582 3.222 9.745-.927 4.433-4.32 7.14-7.461 10.203l-2.621 2.692c-7.95 8.111-7.95 8.111-13.004 8.808-5.81-.155-8.486-3.52-12.375-7.5a1969 1969 0 0 0-3.84-3.804c-3.742-3.71-7.457-7.446-11.16-11.196-3.051 1.363-5.143 2.898-7.491 5.265l-2.039 2.039-2.204 2.236-2.347 2.355a2588 2588 0 0 0-5.035 5.071q-3.98 4.015-7.969 8.017-8.464 8.502-16.915 17.017a15437 15437 0 0 1-19.602 19.714q-3.93 3.953-7.85 7.914l-4.814 4.833-2.204 2.236-2.039 2.039-1.761 1.775c-3.717 3.201-6.73 3.726-11.632 3.853-5.687-.985-9.489-5.478-13.348-9.426l-1.641-1.643c-3.676-3.717-5.287-5.72-5.609-10.92l-.219-2.476c1.881-7.584 10.703-14.017 16.114-19.39l2.451-2.448q2.617-2.61 5.237-5.218 4.152-4.135 8.299-8.276 9.553-9.532 19.113-19.056 9.469-9.436 18.93-18.88a8918 8918 0 0 1 8.154-8.122l5.026-5.016 2.271-2.255c4.051-4.05 7.926-8.194 11.657-12.542 1.844-2.131 3.783-4.145 5.78-6.133l1.988-1.996C326.37-.42 331.06-.488 336.125.65"

/-- Path data of the third (primary star) path of the logo SVG. -/
def logoStarPrimaryD : String :=
  "M43.125 144.65c2.755 2.755 3.474 6 4.625 9.625l2.375 7.375 18-6c-1.632 4.081-3.258 7.175-5.625 10.813l-1.914 2.957-1.461 2.23c3.391 3.892 8.022 5.92 12.48 8.379l2.52 1.621v2c-6.373.746-12.583 1.104-19 1l.438 2.598c.95 5.859 1.838 11.464 1.562 17.402-4.127-3.001-7.17-6.446-10.352-10.39-1.622-1.959-1.622-1.959-4.648-1.61-2.29 1.887-2.29 1.887-4.563 4.313l-2.378 2.426c-2.18 2.282-2.18 2.282-4.059 5.261l-2-1 3-19h-9a135 135 0 0 1-5.563-.5l-2.566-.281-1.871-.219v-2a146 146 0 0 1 7.5-4.625l2.168-1.273q2.661-1.559 5.332-3.102l-3.375-5.312-1.898-2.988a362 362 0 0 0-3.727-5.7l1-3 17 6c1.604-5.219 1.604-5.219 3.2-10.441 1.689-5.447 1.689-5.447 2.8-6.559"

/-- `LogoIcon` (logo.tsx lines 77-107): the logo SVG, its three glyph paths
filled with the variant's colours, and the clip-path definition. -/
def LogoIcon (colour : LogoColour) : Html :=
  let c := getLogoColours colour
  .el "svg"
    [ ("xmlns", "http://www.w3.org/2000/svg"), ("fill", "none")
    , ("viewBox", "0 0 428 264"), ("aria-label", "VAIT Logo") ]
    [ .el "title" [] [.text "VAIT Logo"]
    , .el "g" [("clipPath", "url(#a)")]
        [ .el "path" [("fill", c.primaryColour), ("d", logoTickPrimaryD)] []
        , .el "path" [("fill", c.secondaryColour), ("d", logoTickSecondaryD)] []
        , .el "path" [("fill", c.primaryColour), ("d", logoStarPrimaryD)] [] ]
    , .el "defs" []
        [ .el "clipPath" [("id", "a")]
            [.el "path" [("fill", "#fff"), ("d", "M0 0h428v264H0z")] []] ] ]

/-- `Logo` (logo.tsx lines 53-55): forwards its props to `LogoIcon`. -/
def Logo (colour : LogoColour) : Html :=
  LogoIcon colour

/-- The fill attributes of the path elements inside the SVG's main group, in
document order (the glyph paths the tests index as paths 0..2). -/
def logoGroupFills (h : Html) : List String :=
  match h with
  | .el _ _ (_ :: .el _ _ paths :: _) =>
    paths.filterMap fun p =>
      match p with
      | .el _ attrs _ => lookupAttr attrs "fill"
      | _ => none
  | _ => []

/-! ## The SectionWithImage component
(`src/components/ui/section-with-image.tsx`) -/

/-- `SectionWithImageProps` (section-with-image.tsx lines 14-43).  `reverse`
is optional: `none` models the prop being omitted, and the destructuring
default `reverse = false` applies then. -/
structure SectionWithImageProps where
  sectionId : String
  title : String
  description : String
  imageSrc : String
  imageAlt : String
  reverse : Option Bool
  children : List Html

/-- `const textOrder = reverse ? 'md:order-2' : 'md:order-1'`
(section-with-image.tsx line 50). -/
def textOrderClass (reverse : Bool) : String :=
  if reverse then "md:order-2" else "md:order-1"

/-- `const imageOrder = reverse ? 'md:order-1' : 'md:order-2'`
(section-with-image.tsx line 51). -/
def imageOrderClass (reverse : Bool) : String :=
  if reverse then "md:order-1" else "md:order-2"

/-- `SectionWithImage` (section-with-image.tsx lines 48-68): a section with a
text block (badge, heading, description, children) and an image block, their
column order alternated by `reverse`. -/
def SectionWithImage (p : SectionWithImageProps) : Html :=
  let reverse := p.reverse.getD false
  .el "section"
    [ ("id", p.sectionId)
    , ("className", "mx-auto max-w-screen-lg px-4 py-8 sm:px-6 lg:px-8") ]
    [ .el "div"
        [("className", "grid grid-cols-1 gap-8 md:grid-cols-2 md:items-center md:gap-16")]
        [ .el "div" [("className", "max-w-lg md:max-w-none " ++ textOrderClass reverse)]
            ([ Badge "secondary" "mb-4" [.text ("#" ++ p.sectionId)]
             , .el "h2"
                 [("className", "text-2xl font-semibold text-brand-yellow-dark sm:text-3xl")]
                 [.text p.title]
             , .el "p" [("className", "mt-4 text-gray-700")] [.text p.description]
             ] ++ p.children)
        , .el "div" [("className", imageOrderClass reverse)]
            [.el "img"
              [ ("src", p.imageSrc), ("alt", p.imageAlt)
              , ("className", "w-full h-auto rounded") ] []] ] ]

/-- The class attribute of the text block: first child of the grid div. -/
def textDivClass (h : Html) : Option String :=
  match h with
  | .el _ _ [.el _ _ (.el _ da _ :: _)] => lookupAttr da "className"
  | _ => none

/-- The class attribute of the image block: second child of the grid div. -/
def imageDivClass (h : Html) : Option String :=
  match h with
  | .el _ _ [.el _ _ (_ :: .el _ ia _ :: _)] => lookupAttr ia "className"
  | _ => none

/-- Replace the class attributes of the text block and of the image block —
the first two children of the grid div — leaving every other part of the
tree, the children passed through included, untouched. -/
def setDivOrderClasses (h : Html) (textClass imageClass : String) : Html :=
  match h with
  | .el st sa [.el gt ga (.el dt da dc :: .el it ia ic :: rest)] =>
    .el st sa
      [.el gt ga
        (.el dt (setAttr da "className" textClass) dc ::
          .el it (setAttr ia "className" imageClass) ic :: rest)]
  | h => h

/-- A concrete prop set for witnesses, `reverse` omitted. -/
def sampleSectionProps : SectionWithImageProps :=
  { sectionId := "knowledge-sharing"
  , title := "Share Knowledge, Build Community"
  , description := "Connect with experienced professionals and emerging talent."
  , imageSrc := "/images/knowledge-sharing.jpg"
  , imageAlt := "People sharing knowledge at a tech event"
  , reverse := none
  , children := [] }

/-! ## Theorems about the infrastructure stack -/

/-- C1: the constructor declares alias (A) records for all three hostnames
(`home.vietausit.com`, `vietausit.com`, `www.vietausit.com`), each targeting
the one CloudFront distribution — but construction does not succeed in
producing all three: the three records share the construct id
`SiteAliasRecord`, so the constructs library rejects the second one, after
only the `home.vietausit.com` record has been created. -/
theorem homepageStack_alias_records_duplicate_id :
    aRecordsOf homepageStackEvents =
      [aliasRecordProps SITE_DOMAIN, aliasRecordProps BASE_DOMAIN,
        aliasRecordProps WWW_DOMAIN] ∧
    (∀ r ∈ aRecordsOf homepageStackEvents,
      r.targetDistributionId = "HomepageSiteDistribution") ∧
    constructHomepageStack =
      .error ("SiteAliasRecord", homepageStackEvents.take 7) ∧
    aRecordsOf (homepageStackEvents.take 7) = [aliasRecordProps SITE_DOMAIN] := by
  refine ⟨rfl, ?_, rfl, rfl⟩
  decide

/-- C2: the distribution's error-response configuration rewrites exactly the
statuses 403 and 404, both to status 200 with page `/index.html`; every other
status is left untouched. -/
theorem distribution_error_rewrites :
    ∀ s : Nat, rewriteStatus distributionProps s =
      if s = 403 ∨ s = 404 then some (200, "/index.html") else none := by
  intro s
  by_cases h3 : s = 403
  · subst h3; rfl
  · by_cases h4 : s = 404
    · subst h4; rfl
    · have e3 : decide (403 = s) = false := decide_eq_false fun h => h3 h.symm
      have e4 : decide (404 = s) = false := decide_eq_false fun h => h4 h.symm
      simp [rewriteStatus, distributionProps, List.find?, e3, e4, h3, h4]

/-- C4 counterexample: the stack's single certificate request carries the
domain name `*.vietausit.com`, and that wildcard name does not cover the
apex `vietausit.com` — contradicting the claim that the certificate's domain
name covers both the apex and the wildcard domain. -/
theorem certificate_wildcard_not_cover_apex :
    certificatesOf homepageStackEvents = [certificateProps] ∧
    coversHost certificateProps.domainName BASE_DOMAIN = false := by
  decide

/-- C4 (amended): the stack requests exactly one DNS-validated certificate,
in region `us-east-1`, against the hosted zone of the base domain, with
domain name `*.vietausit.com`: it covers the first-level subdomains
`www.vietausit.com` and `home.vietausit.com` but not the apex
`vietausit.com`. -/
theorem certificate_single_wildcard_us_east_1 :
    certificatesOf homepageStackEvents = [certificateProps] ∧
    certificateProps.region = "us-east-1" ∧
    certificateProps.hostedZoneDomain = BASE_DOMAIN ∧
    certificateProps.domainName = "*." ++ BASE_DOMAIN ∧
    coversHost certificateProps.domainName WWW_DOMAIN = true ∧
    coversHost certificateProps.domainName SITE_DOMAIN = true ∧
    coversHost certificateProps.domainName BASE_DOMAIN = false := by
  decide

/-- C5: the distribution's default behavior admits only the methods GET,
HEAD and OPTIONS, redirects plain-HTTP viewers to HTTPS, and sets the
minimum TLS protocol version to TLS 1.2 (2021 policy). -/
theorem distribution_https_and_methods :
    distributionProps.defaultBehavior.allowedMethods.methods =
      ["GET", "HEAD", "OPTIONS"] ∧
    distributionProps.defaultBehavior.viewerProtocolPolicy =
      .REDIRECT_TO_HTTPS ∧
    distributionProps.minimumProtocolVersion = .TLS_V1_2_2021 := by
  decide

/-- C6: the constructor body is one fixed linear sequence of instantiations
in which every construct references only constructs instantiated strictly
before it; in particular the distribution references the already-created
certificate, every alias record references the already-created distribution,
and the deployment references the already-created bucket and distribution
with invalidation path `/*`. -/
theorem homepageStack_provisioning_linear :
    referencesBackward [] homepageStackEvents = true ∧
    distributionProps.certificateId = "VAITHomeCertificate" ∧
    distributionProps.defaultBehavior.origin.bucketId = "HomepageSiteBucket" ∧
    (∀ r ∈ aRecordsOf homepageStackEvents,
      r.targetDistributionId = "HomepageSiteDistribution") ∧
    deploymentProps.destinationBucketId = "HomepageSiteBucket" ∧
    deploymentProps.distributionId = "HomepageSiteDistribution" ∧
    deploymentProps.distributionPaths = ["/*"] := by
  decide

/-- C7: the site bucket is private — public read access disabled and all
public access blocked — and the distribution reaches it through an origin
with origin access control. -/
theorem site_bucket_private :
    ("HomepageSiteBucket", Resource.bucket siteBucketProps) ∈ homepageStackEvents ∧
    siteBucketProps.publicReadAccess = false ∧
    siteBucketProps.blockPublicAccess = .BLOCK_ALL ∧
    distributionProps.defaultBehavior.origin =
      .s3WithOriginAccessControl "HomepageSiteBucket" := by
  decide

/-! ## Theorems about the components -/

/-- C3 counterexample: the components are not all pure and effect-free —
`IndexPage`'s `useEffect` sets `document.title`, a side effect outside the
returned tree. -/
theorem components_not_all_pure : ¬ allComponentsPure := by
  intro h
  have h5 := h.2.2.2.2 ⟨"a", "n", "N", "S", "d"⟩
  simp [indexPageEffects] at h5

/-- C3 (amended): `Hero`, `SectionWithImage` and `Footer` perform no side
effect; `IndexPage` performs exactly one, setting `document.title` to
`SHORT_NAME - NAME`; and the footer's markup is not a function of props
alone — its copyright line embeds the year read from the clock, so two
renders with equal props in different years differ. -/
theorem components_pure_except_title_effect_and_clock :
    heroEffects = [] ∧ sectionWithImageEffects = [] ∧ footerEffects = [] ∧
    (∀ org : Organisation, indexPageEffects org =
      [Effect.setDocumentTitle (org.SHORT_NAME ++ " - " ++ org.NAME)]) ∧
    (∀ (org : Organisation) (y : Nat),
      footerCopyrightText (Footer org y) =
        some ("© " ++ toString y ++ " " ++ org.NAME)) ∧
    footerCopyrightText (Footer ⟨"a", "n", "N", "S", "d"⟩ 2024) ≠
      footerCopyrightText (Footer ⟨"a", "n", "N", "S", "d"⟩ 2025) := by
  refine ⟨rfl, rfl, rfl, fun org => rfl, fun org y => rfl, ?_⟩
  decide

/-- C8: every rendering of the footer shows the configured ABN prefixed by
`ABN: ` and the configured association number prefixed by
`Association No: (VIC) `, whatever the organisation constants and the
current year are. -/
theorem footer_shows_abn_and_association_number :
    ∀ (org : Organisation) (y : Nat),
      ("ABN: " ++ org.ABN) ∈ (Footer org y).texts ∧
      ("Association No: (VIC) " ++ org.ASSOCIATION_NUMBER) ∈ (Footer org y).texts := by
  intro org y
  simp [Footer, Html.texts, htmlsTexts]

/-- C9: the logo's three glyph paths are filled per variant exactly as the
palette prescribes: `colour` gives primary/secondary/primary
(`#F5DF4D`, `#939597`, `#F5DF4D`), `gray` gives secondary throughout
(`#939597`), `dark-gray` gives dark-gray/secondary/dark-gray
(`#1C1C1C`, `#939597`, `#1C1C1C`). -/
theorem logo_fill_colours_per_variant :
    logoGroupFills (Logo .colour) =
      [LOGO_COLOURS.PRIMARY, LOGO_COLOURS.SECONDARY, LOGO_COLOURS.PRIMARY] ∧
    logoGroupFills (Logo .gray) =
      [LOGO_COLOURS.SECONDARY, LOGO_COLOURS.SECONDARY, LOGO_COLOURS.SECONDARY] ∧
    logoGroupFills (Logo .darkGray) =
      [LOGO_COLOURS.DARK_GRAY, LOGO_COLOURS.SECONDARY, LOGO_COLOURS.DARK_GRAY] ∧
    LOGO_COLOURS.PRIMARY = "#F5DF4D" ∧
    LOGO_COLOURS.SECONDARY = "#939597" ∧
    LOGO_COLOURS.DARK_GRAY = "#1C1C1C" :=
  ⟨rfl, rfl, rfl, rfl, rfl, rfl⟩

/-- C10: with `reverse` omitted or false the text block gets order class
`md:order-1` and the image block `md:order-2`; with `reverse` true the two
order classes are exactly swapped and nothing else of the markup changes:
the reversed rendering equals the non-reversed one with just those two class
attributes replaced. -/
theorem sectionWithImage_reverse_swaps_orders :
    (∀ p : SectionWithImageProps, p.reverse = none ∨ p.reverse = some false →
      textDivClass (SectionWithImage p) = some "max-w-lg md:max-w-none md:order-1" ∧
      imageDivClass (SectionWithImage p) = some "md:order-2") ∧
    (∀ p : SectionWithImageProps,
      textDivClass (SectionWithImage { p with reverse := some true }) =
        some "max-w-lg md:max-w-none md:order-2" ∧
      imageDivClass (SectionWithImage { p with reverse := some true }) =
        some "md:order-1" ∧
      SectionWithImage { p with reverse := some true } =
        setDivOrderClasses (SectionWithImage { p with reverse := some false })
          "max-w-lg md:max-w-none md:order-2" "md:order-1") := by
  constructor
  · intro p h
    rcases h with h | h <;>
      simp [SectionWithImage, h, textDivClass, imageDivClass, textOrderClass,
        imageOrderClass, Badge, lookupAttr]
  · intro p
    refine ⟨rfl, rfl, rfl⟩

/-- C10 witness: the swap theorem applied to a concrete prop set with
`reverse` omitted. -/
theorem sectionWithImage_reverse_swaps_orders_witness :
    textDivClass (SectionWithImage sampleSectionProps) =
      some "max-w-lg md:max-w-none md:order-1" ∧
    imageDivClass (SectionWithImage sampleSectionProps) = some "md:order-2" :=
  sectionWithImage_reverse_swaps_orders.1 sampleSectionProps (Or.inl rfl)

end Homepage
